import Mathlib

/-!
# Verification of the Conclave AI debate orchestrator

A shallow embedding of `src/conclave.py` and the `/api/analyze` route of
`src/app.py`, together with theorems settling the specification claims.

The network is abstracted as an oracle `Net` mapping the request payload the
code would send to the outcome of the HTTP round trip; `datetime.now()` is
abstracted as an external clock value `now`.  Each `query_model` invocation
is recorded as a `Call` in a trace so that dispatch counts, targets and
prompt texts can be stated.
-/

namespace Conclave

/-- The configuration of one participant, as stored in `self.models`
(conclave.py lines 29-48): backend model id, temperature, token limit and
persona/system prompt. -/
structure ModelConfig where
  model : String
  temperature : ℚ
  max_tokens : Nat
  personality : String
deriving DecidableEq, Repr

/-- The participant registry `self.models`, in Python dict insertion order
(conclave.py lines 29-48): chatgpt, claude, gemini. -/
def models : List (String × ModelConfig) :=
  [("chatgpt",
    { model := "openai/gpt-4o", temperature := 7/10, max_tokens := 500,
      personality := "You are ChatGPT in a collaborative AI debate. Respond with friendly, balanced, and creative reasoning. Be collaborative and constructive." }),
   ("claude",
    { model := "anthropic/claude-3.5-sonnet", temperature := 7/10, max_tokens := 500,
      personality := "You are Claude in a collaborative AI debate. Provide thoughtful, ethical, and structured reasoning. Consider multiple perspectives carefully." }),
   ("gemini",
    { model := "google/gemini-pro-1.5", temperature := 7/10, max_tokens := 500,
      personality := "You are Gemini in an AI collaborative debate. Provide analytical, fact-driven, data-heavy insights. Be precise and evidence-based." })]

/-- The JSON body `query_model` posts to the gateway (conclave.py
lines 64-72): backend id, the system (persona) and user (prompt) messages,
and the sampling parameters. -/
structure Payload where
  model : String
  system : String
  user : String
  temperature : ℚ
  max_tokens : Nat
deriving DecidableEq, Repr

/-- Build the payload from the configuration of a participant and the prompt,
as conclave.py lines 64-72 do. -/
def mkPayload (cfg : ModelConfig) (prompt : String) : Payload :=
  { model := cfg.model, system := cfg.personality, user := prompt,
    temperature := cfg.temperature, max_tokens := cfg.max_tokens }

/-- What `data.choices[0].message.content` yields on a 200
response: either the content string, or an exception (malformed payload)
whose `str(e)` is `excDetail`. -/
inductive JsonView where
  | content (c : String)
  | malformed (excDetail : String)
deriving DecidableEq, Repr

/-- Outcome of one HTTP round trip: either a response with a status code,
a parsed-JSON view (used when the status is 200) and a raw body text (used
otherwise), or an exception raised by the transport, with `str(e)` as the
detail. -/
inductive NetOutcome where
  | response (status : Nat) (j : JsonView) (text : String)
  | raise (detail : String)
deriving DecidableEq, Repr

/-- The network oracle: the outcome of posting a given payload. -/
def Net : Type := Payload → NetOutcome

/-- A Python exception escaping a function, rendered as a string. -/
def keyError (name : String) : String := "KeyError: \x27" ++ name ++ "\x27"

/-- Python `str.upper()` on the ASCII participant names: uppercase each
character. -/
def upper (s : String) : String := String.mk (s.data.map Char.toUpper)

/-- Python `str.strip()`: drop whitespace from both ends. -/
def strip (s : String) : String :=
  String.mk
    (((s.data.dropWhile fun c => c.isWhitespace).reverse.dropWhile
        fun c => c.isWhitespace).reverse)

/-- The `" Error: API key not configured"` inline string of conclave.py
line 53. -/
def notConfigured (name : String) : String :=
  upper name ++ " Error: API key not configured"

/-- The operation `ConclaveAI.query_model` (conclave.py lines 50-86).  With no API key it
returns the inline "not configured" string before touching the registry or
the network.  With a key, the unguarded registry lookup `self.models[model_name]`
(line 62) sits outside the `try`, so an unregistered name raises a
`KeyError` (modelled as `Except.error`).  For a registered name the network
interaction is wrapped in `try`: a 200 response with well-formed payload
returns the content; a 200 response with malformed payload raises inside
the `try` and is caught (line 84-86); a non-200 response returns the
`"Error <status>: <body>"` string (line 83); a transport exception is
caught and returns the `"Connection Error: <detail>"` string (line 86). -/
def query_model (apiKey : Option String) (net : Net) (model_name prompt : String) :
    Except String String :=
  match apiKey with
  | none => .ok (notConfigured model_name)
  | some _ =>
    match models.lookup model_name with
    | none => .error (keyError model_name)
    | some cfg =>
      match net (mkPayload cfg prompt) with
      | .response status j text =>
        if status = 200 then
          match j with
          | .content c => .ok c
          | .malformed d => .ok (upper model_name ++ " Connection Error: " ++ d)
        else
          .ok (upper model_name ++ " Error " ++ toString status ++ ": " ++ text)
      | .raise d => .ok (upper model_name ++ " Connection Error: " ++ d)

/-- The string `query_model` returns for a registered participant (it never
raises for those); mirrors the branches of `query_model`. -/
def queryOk (apiKey : Option String) (net : Net) (model_name prompt : String) : String :=
  match apiKey with
  | none => notConfigured model_name
  | some _ =>
    match models.lookup model_name with
    | none => ""
    | some cfg =>
      match net (mkPayload cfg prompt) with
      | .response status j text =>
        if status = 200 then
          match j with
          | .content c => c
          | .malformed d => upper model_name ++ " Connection Error: " ++ d
        else
          upper model_name ++ " Error " ++ toString status ++ ": " ++ text
      | .raise d => upper model_name ++ " Connection Error: " ++ d

/-- The three protocol phases of a debate run. -/
inductive Phase where
  | initial
  | refined
  | consensus
deriving DecidableEq, Repr

/-- One recorded `query_model` dispatch: which phase issued it, the
participant it targets, and the prompt it carries. -/
structure Call where
  phase : Phase
  name : String
  prompt : String
deriving DecidableEq, Repr

/-- The result dict returned by `run_conclave_debate` (conclave.py
lines 176-182): question, both transcripts (Python dicts in insertion
order, modelled as association lists), consensus text and timestamp. -/
structure DebateResult where
  question : String
  initial_responses : List (String × String)
  refined_responses : List (String × String)
  consensus : String
  timestamp : Nat
deriving DecidableEq, Repr

/-- The rendering `"\n".join(...)` of conclave.py: render a phase
transcript one line per participant, labelled with the uppercased name, in
the insertion order of the transcript itself (conclave.py lines 120-121, 169). -/
def renderTranscript (t : List (String × String)) : String :=
  String.intercalate "\n" (t.map fun p => upper p.1 ++ ": " ++ p.2)

/-- The Phase-2 refinement prompt f-string, byte-for-byte (conclave.py
lines 123-131), as a function of the question and the rendered Phase-1
transcript. -/
def refinementPromptStr (question allPerspectives : String) : String :=
  "\n        Original Question: " ++ question ++
  "\n        \n        All AI Perspectives:\n        " ++ allPerspectives ++
  "\n        \n        Based on the other AIs\x27 responses, provide your refined perspective. \n        Challenge weak points, acknowledge strong arguments, and build upon good ideas.\n        "

/-- The Phase-3 consensus prompt f-string, byte-for-byte (conclave.py
lines 156-170), as a function of the question and the two rendered
transcripts. -/
def consensusPromptStr (question allPerspectives refinedRendering : String) : String :=
  "\n        Question: " ++ question ++
  "\n        \n        After thorough debate, synthesize the best insights from all perspectives into a final consensus answer that:\n        1. Incorporates the strongest points from each AI\n        2. Addresses the original question comprehensively\n        3. Acknowledges any remaining uncertainties\n        4. Provides actionable insights where possible\n        \n        All perspectives considered:\n        " ++
  allPerspectives ++
  "\n        \n        Refined perspectives:\n        " ++ refinedRendering ++ "\n        "

/-- The orchestrator `ConclaveAI.run_conclave_debate` (conclave.py lines 88-182).  Phase 1
dispatches the question to chatgpt, gemini, claude (the `asyncio.gather`
task order of lines 97-101) and collects `initial_responses` in that dict
insertion order; Phase 2 builds one shared refinement prompt from the
rendered Phase-1 transcript and dispatches it to all three; Phase 3
dispatches the consensus prompt once, to claude.  The trace lists the seven
`query_model` dispatches in program order.  Concurrency is immaterial here:
each result is bound to the participant whose task produced it, never by
completion order. -/
def run_conclave_debate (apiKey : Option String) (net : Net) (now : Nat)
    (question : String) : Except String (DebateResult × List Call) := do
  let r0 ← query_model apiKey net "chatgpt" question
  let r1 ← query_model apiKey net "gemini" question
  let r2 ← query_model apiKey net "claude" question
  let initial_responses := [("chatgpt", r0), ("gemini", r1), ("claude", r2)]
  let all_perspectives := renderTranscript initial_responses
  let refinement_prompt := refinementPromptStr question all_perspectives
  let s0 ← query_model apiKey net "chatgpt" refinement_prompt
  let s1 ← query_model apiKey net "gemini" refinement_prompt
  let s2 ← query_model apiKey net "claude" refinement_prompt
  let refined_dict := [("chatgpt", s0), ("gemini", s1), ("claude", s2)]
  let consensus_prompt :=
    consensusPromptStr question all_perspectives (renderTranscript refined_dict)
  let consensus ← query_model apiKey net "claude" consensus_prompt
  pure ({ question := question, initial_responses := initial_responses,
          refined_responses := refined_dict, consensus := consensus,
          timestamp := now },
        [⟨.initial, "chatgpt", question⟩, ⟨.initial, "gemini", question⟩,
         ⟨.initial, "claude", question⟩,
         ⟨.refined, "chatgpt", refinement_prompt⟩,
         ⟨.refined, "gemini", refinement_prompt⟩,
         ⟨.refined, "claude", refinement_prompt⟩,
         ⟨.consensus, "claude", consensus_prompt⟩])

/-- The participant hardcoded to perform the Phase-3 synthesis
(conclave.py line 151 comment and line 172). -/
def synthesizer : String := "claude"

/-- The Phase-1 transcript as a function of key, oracle and question. -/
def initialOf (apiKey : Option String) (net : Net) (q : String) :
    List (String × String) :=
  [("chatgpt", queryOk apiKey net "chatgpt" q),
   ("gemini", queryOk apiKey net "gemini" q),
   ("claude", queryOk apiKey net "claude" q)]

/-- The shared Phase-2 prompt as a function of key, oracle and question. -/
def refinementOf (apiKey : Option String) (net : Net) (q : String) : String :=
  refinementPromptStr q (renderTranscript (initialOf apiKey net q))

/-- The Phase-2 transcript as a function of key, oracle and question. -/
def refinedOf (apiKey : Option String) (net : Net) (q : String) :
    List (String × String) :=
  [("chatgpt", queryOk apiKey net "chatgpt" (refinementOf apiKey net q)),
   ("gemini", queryOk apiKey net "gemini" (refinementOf apiKey net q)),
   ("claude", queryOk apiKey net "claude" (refinementOf apiKey net q))]

/-- The Phase-3 prompt as a function of key, oracle and question. -/
def consensusPromptOf (apiKey : Option String) (net : Net) (q : String) : String :=
  consensusPromptStr q (renderTranscript (initialOf apiKey net q))
    (renderTranscript (refinedOf apiKey net q))

/-- The full result of a completed run, in closed form. -/
def resultOf (apiKey : Option String) (net : Net) (now : Nat) (q : String) :
    DebateResult :=
  { question := q, initial_responses := initialOf apiKey net q,
    refined_responses := refinedOf apiKey net q,
    consensus := queryOk apiKey net "claude" (consensusPromptOf apiKey net q),
    timestamp := now }

/-- The seven dispatches of a completed run, in program order. -/
def traceOf (apiKey : Option String) (net : Net) (q : String) : List Call :=
  [⟨.initial, "chatgpt", q⟩, ⟨.initial, "gemini", q⟩, ⟨.initial, "claude", q⟩,
   ⟨.refined, "chatgpt", refinementOf apiKey net q⟩,
   ⟨.refined, "gemini", refinementOf apiKey net q⟩,
   ⟨.refined, "claude", refinementOf apiKey net q⟩,
   ⟨.consensus, "claude", consensusPromptOf apiKey net q⟩]

/-- The value a Python JSON field can hold, as far as the route needs. -/
inductive JVal where
  | str (v : String)
  | null
deriving DecidableEq, Repr

/-- The request body seen by `/api/analyze`: `request.get_json()` returned
nothing usable (`None` or an empty/falsy dict), a dict without a
`question` key, or a dict whose `question` field holds a given value. -/
inductive ReqBody where
  | noJson
  | withoutQuestion
  | withQuestion (q : JVal)
deriving DecidableEq, Repr

/-- The HTTP response of `/api/analyze`: 400 with an error message, 500
with an error message, or 200 with the success envelope of app.py
lines 53-59. -/
inductive ApiResponse where
  | badRequest (error : String)
  | internalError (error : String)
  | success (question consensus : String) (timestamp : Nat)
      (models_consulted : List String)
deriving DecidableEq, Repr

/-- The route handler `analyze_question` (app.py lines 37-66) paired with the trace of
`query_model` dispatches it causes.  Missing body or missing `question`
key is rejected 400 before any dispatch; a null question makes
`.strip()` raise `AttributeError`, caught by the blanket handler of the route
as a 500, still before any dispatch; an empty-after-strip question is
rejected 400 before any dispatch; otherwise the debate runs on the
stripped question and the envelope is built from the result. -/
def analyze_question (apiKey : Option String) (net : Net) (now : Nat)
    (body : ReqBody) : ApiResponse × List Call :=
  match body with
  | .noJson => (.badRequest "No question provided", [])
  | .withoutQuestion => (.badRequest "No question provided", [])
  | .withQuestion .null =>
    (.internalError
      "Analysis failed: \x27NoneType\x27 object has no attribute \x27strip\x27", [])
  | .withQuestion (.str q) =>
    let question := strip q
    if question = "" then (.badRequest "Question cannot be empty", [])
    else
      match run_conclave_debate apiKey net now question with
      | .ok (r, tr) =>
        (.success r.question r.consensus r.timestamp
          ["ChatGPT", "Gemini", "Claude"], tr)
      | .error e => (.internalError ("Analysis failed: " ++ e), [])

/-! ## Concrete oracles used in witnesses and counterexamples -/

/-- An oracle on which every round trip raises a transport exception. -/
def raiseNet : Net := fun _ => .raise "timeout"

/-- An oracle on which every round trip succeeds with fixed content. -/
def okNet : Net := fun _ => .response 200 (.content "resp") ""

/-- An oracle whose reply names the backend it was addressed to, so that
distinct participants receive distinct response texts. -/
def taggedNet : Net := fun pl => .response 200 (.content ("R " ++ pl.model)) ""

/-! ## Basic lemmas about the embedding -/

theorem ok_bind {α β ε : Type} (a : α) (f : α → Except ε β) :
    (Except.ok a >>= f) = f a := rfl

theorem query_model_registered (k : Option String) (net : Net)
    (name prompt : String) (h : (models.lookup name).isSome = true) :
    query_model k net name prompt = Except.ok (queryOk k net name prompt) := by
  cases k with
  | none => rfl
  | some a =>
    cases hl : models.lookup name with
    | none => rw [hl] at h; simp at h
    | some cfg =>
      simp only [query_model, queryOk, hl]
      cases net (mkPayload cfg prompt) with
      | response s j t =>
        by_cases hs : s = 200
        · cases j <;> simp [hs]
        · simp [hs]
      | raise d => rfl

theorem query_model_chatgpt (k : Option String) (net : Net) (prompt : String) :
    query_model k net "chatgpt" prompt =
      Except.ok (queryOk k net "chatgpt" prompt) :=
  query_model_registered k net "chatgpt" prompt (by decide)

theorem query_model_gemini (k : Option String) (net : Net) (prompt : String) :
    query_model k net "gemini" prompt =
      Except.ok (queryOk k net "gemini" prompt) :=
  query_model_registered k net "gemini" prompt (by decide)

theorem query_model_claude (k : Option String) (net : Net) (prompt : String) :
    query_model k net "claude" prompt =
      Except.ok (queryOk k net "claude" prompt) :=
  query_model_registered k net "claude" prompt (by decide)

/-- A debate run always completes, with the closed-form result and the
seven dispatches of `traceOf`. -/
theorem run_eq (k : Option String) (net : Net) (now : Nat) (q : String) :
    run_conclave_debate k net now q =
      Except.ok (resultOf k net now q, traceOf k net q) := by
  simp only [run_conclave_debate, query_model_chatgpt, query_model_gemini,
    query_model_claude, ok_bind]
  rfl

/-! ## Claim theorems -/

/-- C3: in Phase 3 exactly one participant receives the consensus prompt,
and it is the designated synthesizer (claude, hardcoded at conclave.py
line 172 per the line-151 comment), independent of registry order; the
string it returns is the consensus of the result, with no further
aggregation. -/
theorem phase3_synthesizer_exclusive (k : Option String) (net : Net)
    (now : Nat) (q : String) :
    ∃ r tr, run_conclave_debate k net now q = Except.ok (r, tr) ∧
      tr.filter (fun c => decide (c.phase = Phase.consensus)) =
        [⟨Phase.consensus, synthesizer, consensusPromptOf k net q⟩] ∧
      r.consensus = queryOk k net synthesizer (consensusPromptOf k net q) :=
  ⟨resultOf k net now q, traceOf k net q, run_eq k net now q, rfl, rfl⟩

/-- C4: for every non-empty question and every oracle behaviour, the run
completes and each transcript has exactly one entry per registered
participant, with identical name sets (indeed identical name sequences)
across Phase 1 and Phase 2. -/
theorem transcripts_one_entry_per_participant (q : String) (hq : q ≠ "")
    (k : Option String) (net : Net) (now : Nat) :
    ∃ r tr, run_conclave_debate k net now q = Except.ok (r, tr) ∧
      (r.initial_responses.map Prod.fst).Perm (models.map Prod.fst) ∧
      (r.initial_responses.map Prod.fst).Nodup ∧
      r.refined_responses.map Prod.fst = r.initial_responses.map Prod.fst := by
  refine ⟨resultOf k net now q, traceOf k net q, run_eq k net now q, ?_, ?_, rfl⟩
  · show (["chatgpt", "gemini", "claude"] : List String).Perm
      (models.map Prod.fst)
    decide
  · show (["chatgpt", "gemini", "claude"] : List String).Nodup
    decide

/-- Closed witness for C4, at the non-empty question "x". -/
theorem transcripts_one_entry_per_participant_witness :
    ∃ r tr, run_conclave_debate none raiseNet 0 "x" = Except.ok (r, tr) ∧
      (r.initial_responses.map Prod.fst).Perm (models.map Prod.fst) ∧
      (r.initial_responses.map Prod.fst).Nodup ∧
      r.refined_responses.map Prod.fst = r.initial_responses.map Prod.fst :=
  transcripts_one_entry_per_participant "x" (by decide) none raiseNet 0

/-- C7: with the API credential absent, every `query_model` call returns
the inline "not configured" string without consulting the network oracle
(the result is the same for any two oracles), and a debate run still
completes in full, its consensus being that error string for the
synthesizer. -/
theorem no_credential_degrades_gracefully (net net2 : Net) (now : Nat)
    (q name prompt : String) :
    query_model none net name prompt =
      Except.ok (upper name ++ " Error: API key not configured") ∧
    query_model none net name prompt = query_model none net2 name prompt ∧
    ∃ r tr, run_conclave_debate none net now q = Except.ok (r, tr) ∧
      r.consensus = "CLAUDE Error: API key not configured" ∧
      r.initial_responses =
        [("chatgpt", "CHATGPT Error: API key not configured"),
         ("gemini", "GEMINI Error: API key not configured"),
         ("claude", "CLAUDE Error: API key not configured")] :=
  ⟨rfl, rfl, resultOf none net now q, traceOf none net q,
    run_eq none net now q,
    by show notConfigured "claude" = "CLAUDE Error: API key not configured"
       decide,
    by show [("chatgpt", notConfigured "chatgpt"),
             ("gemini", notConfigured "gemini"),
             ("claude", notConfigured "claude")] =
          [("chatgpt", "CHATGPT Error: API key not configured"),
           ("gemini", "GEMINI Error: API key not configured"),
           ("claude", "CLAUDE Error: API key not configured")]
       decide⟩

/-- C8: on every question the run returns a result with exactly the five
components question / initial transcript / refined transcript / consensus
text / timestamp, the question component equal to the input unchanged and
the timestamp equal to the clock value at assembly; the result is the one
record built by the final return, nothing else. -/
theorem result_shape (k : Option String) (net : Net) (now : Nat) (q : String) :
    ∃ tr, run_conclave_debate k net now q =
      Except.ok
        ({ question := q,
           initial_responses := initialOf k net q,
           refined_responses := refinedOf k net q,
           consensus := queryOk k net "claude" (consensusPromptOf k net q),
           timestamp := now }, tr) ∧
      (resultOf k net now q).question = q ∧
      (resultOf k net now q).timestamp = now :=
  ⟨traceOf k net q, run_eq k net now q, rfl, rfl⟩

/-- C9: prompt construction is deterministic — two runs (any credentials,
oracles and clock values) that produce the same Phase-1 and Phase-2
transcripts render byte-identical refinement prompts and byte-identical
consensus prompts. -/
theorem prompts_deterministic (k k2 : Option String) (net net2 : Net)
    (q : String)
    (h1 : initialOf k net q = initialOf k2 net2 q)
    (h2 : refinedOf k net q = refinedOf k2 net2 q) :
    refinementOf k net q = refinementOf k2 net2 q ∧
    consensusPromptOf k net q = consensusPromptOf k2 net2 q := by
  constructor
  · unfold refinementOf
    rw [h1]
  · unfold consensusPromptOf
    rw [h1, h2]

/-- Closed witness for C9: two runs with different clock values and the
same oracle. -/
theorem prompts_deterministic_witness :
    refinementOf none raiseNet "q" = refinementOf none raiseNet "q" ∧
    consensusPromptOf none raiseNet "q" = consensusPromptOf none raiseNet "q" :=
  prompts_deterministic none none raiseNet raiseNet "q" rfl rfl

/-- C10: with a credential configured, `query_model` on a name that is not
a registry key raises a KeyError (the lookup sits outside the `try`)
instead of returning an inline error string. -/
theorem unregistered_name_raises (name : String)
    (h : models.lookup name = none) (apik : String) (net : Net)
    (prompt : String) :
    query_model (some apik) net name prompt =
      Except.error (keyError name) := by
  simp only [query_model, h]

/-- Closed witness for C10 at the unregistered name "grok". -/
theorem unregistered_name_raises_witness :
    query_model (some "k") raiseNet "grok" "hi" =
      Except.error (keyError "grok") :=
  unregistered_name_raises "grok" (by decide) "k" raiseNet "hi"

/-- The error-string shapes claimed by C1: with PARTICIPANT the uppercased
participant name, either PARTICIPANT Error: detail, or
PARTICIPANT Error status: body. -/
def claimedErrorForm (name s : String) : Prop :=
  (∃ d, s = upper name ++ " Error: " ++ d) ∨
  (∃ (st : Nat) (b : String),
    s = upper name ++ " Error " ++ toString st ++ ": " ++ b)

/-- The error-string shapes the code actually produces: the two claimed
forms plus PARTICIPANT Connection Error: detail, which line 86 of
conclave.py emits for transport exceptions and malformed 200 payloads. -/
def actualErrorForm (name s : String) : Prop :=
  claimedErrorForm name s ∨ (∃ d, s = upper name ++ " Connection Error: " ++ d)

/-- The call failed: either the credential is missing, or the round trip
for the payload this participant would send did not come back as a 200
response with a well-formed content field. -/
def queryFailed (k : Option String) (net : Net) (name prompt : String) : Prop :=
  k = none ∨ ∀ cfg, models.lookup name = some cfg →
    ∀ c text, net (mkPayload cfg prompt) ≠ .response 200 (.content c) text

/-- Taking an initial segment that ends inside the left part of an append
sees only the left part. -/
theorem take_of_append_left (p q : List Char) (n : Nat) (hn : n ≤ p.length) :
    (p ++ q).take n = p.take n := by
  rw [List.take_append_eq_append_take, Nat.sub_eq_zero_of_le hn,
    List.take_zero, List.append_nil]

/-- String concatenation is associative. -/
theorem str_append_assoc (a b c : String) : a ++ b ++ c = a ++ (b ++ c) := by
  apply String.ext
  simp [String.data_append, List.append_assoc]

/-- C1 is false as stated: a transport exception makes `query_model`
return the inline string CHATGPT Connection Error: timeout, which matches
neither claimed form (its first nine characters already differ from
CHATGPT E). -/
theorem error_string_form_counterexample :
    query_model (some "k") raiseNet "chatgpt" "hi" =
      Except.ok "CHATGPT Connection Error: timeout" ∧
    ¬ claimedErrorForm "chatgpt" "CHATGPT Connection Error: timeout" := by
  constructor
  · exact congrArg Except.ok
      (by decide :
        (upper "chatgpt" ++ " Connection Error: " ++ "timeout" : String) =
          "CHATGPT Connection Error: timeout")
  · rintro (⟨d, hd⟩ | ⟨st, b, hb⟩)
    · have h9 : ("CHATGPT Connection Error: timeout" : String).data.take 9 =
          ((upper "chatgpt" ++ " Error: ") : String).data.take 9 := by
        conv_lhs => rw [hd]
        rw [String.data_append, take_of_append_left _ _ 9 (by decide)]
      exact absurd h9 (by decide)
    · have hA : ((upper "chatgpt" ++ " Error ") : String).data.length = 14 := by
        decide
      have hY : (9 : Nat) ≤
          ((upper "chatgpt" ++ " Error " ++ toString st) : String).data.length := by
        rw [String.data_append, List.length_append, hA]
        omega
      have hX : (9 : Nat) ≤
          ((upper "chatgpt" ++ " Error " ++ toString st ++ ": ") : String).data.length := by
        rw [String.data_append, List.length_append]
        omega
      have h9 : ("CHATGPT Connection Error: timeout" : String).data.take 9 =
          ((upper "chatgpt" ++ " Error ") : String).data.take 9 := by
        conv_lhs => rw [hb]
        rw [String.data_append, take_of_append_left _ _ 9 hX,
          String.data_append, take_of_append_left _ _ 9 hY,
          String.data_append, take_of_append_left _ _ 9 (by rw [hA]; omega)]
      exact absurd h9 (by decide)

/-- C1 amended: for every registered participant name, `query_model` never
raises — it returns a string — and whenever the call failed (missing
credential, non-2xx response, transport error or malformed payload) that
string has one of the inline error forms, which include
PARTICIPANT Connection Error: detail alongside the two forms C1 lists. -/
theorem query_model_never_raises_registered (name : String)
    (h : (models.lookup name).isSome = true) (k : Option String) (net : Net)
    (prompt : String) :
    ∃ s, query_model k net name prompt = Except.ok s ∧
      (queryFailed k net name prompt → actualErrorForm name s) := by
  refine ⟨queryOk k net name prompt, query_model_registered k net name prompt h, ?_⟩
  intro hfail
  cases k with
  | none =>
    refine Or.inl (Or.inl ⟨"API key not configured", ?_⟩)
    show upper name ++ " Error: API key not configured" =
      upper name ++ " Error: " ++ "API key not configured"
    rw [str_append_assoc]
    rw [show (" Error: " ++ "API key not configured" : String) =
      " Error: API key not configured" from by decide]
  | some a =>
    cases hl : models.lookup name with
    | none => rw [hl] at h; simp at h
    | some cfg =>
      rcases hfail with hk | hne
      · exact absurd hk (by simp)
      · simp only [queryOk, hl]
        cases hn : net (mkPayload cfg prompt) with
        | response s j t =>
          by_cases hs : s = 200
          · cases j with
            | content c =>
              exact absurd hn (by rw [hs]; exact hne cfg hl c t)
            | malformed d =>
              simp only [hs, if_pos rfl]
              exact Or.inr ⟨d, rfl⟩
          · simp only [if_neg hs]
            exact Or.inl (Or.inr ⟨s, t, rfl⟩)
        | raise d => exact Or.inr ⟨d, rfl⟩

/-- Closed witness for the amended C1: the registered participant chatgpt
on an oracle that always raises. -/
theorem query_model_never_raises_registered_witness :
    ∃ s, query_model (some "k") raiseNet "chatgpt" "hi" = Except.ok s ∧
      (queryFailed (some "k") raiseNet "chatgpt" "hi" →
        actualErrorForm "chatgpt" s) :=
  query_model_never_raises_registered "chatgpt" (by decide) (some "k")
    raiseNet "hi"

/-- C2 is false of `run_conclave_debate` as stated: invoked directly with
the empty question it does not fail with a validation error — it completes
normally and dispatches all seven participant completions. -/
theorem empty_question_not_rejected_by_run :
    run_conclave_debate (some "k") okNet 0 "" =
      Except.ok (resultOf (some "k") okNet 0 "", traceOf (some "k") okNet "") ∧
    (traceOf (some "k") okNet "").length = 7 :=
  ⟨run_eq (some "k") okNet 0 "", rfl⟩

/-- C2 amended: the validation lives in the HTTP route, not in the
orchestrator — `analyze_question` rejects a missing body, a body without a
question key, or an empty-after-strip question with a 400 validation
error and zero dispatches, before `run_conclave_debate` is ever invoked. -/
theorem endpoint_rejects_empty_question (k : Option String) (net : Net)
    (now : Nat) (body : ReqBody)
    (h : body = .noJson ∨ body = .withoutQuestion ∨
      ∃ q, body = .withQuestion (.str q) ∧ strip q = "") :
    (∃ msg, (analyze_question k net now body).1 = .badRequest msg) ∧
      (analyze_question k net now body).2 = [] := by
  rcases h with h | h | ⟨q, h, hq⟩ <;> subst h
  · exact ⟨⟨"No question provided", rfl⟩, rfl⟩
  · exact ⟨⟨"No question provided", rfl⟩, rfl⟩
  · constructor
    · exact ⟨"Question cannot be empty", by simp [analyze_question, hq]⟩
    · simp [analyze_question, hq]

/-- Closed witness for the amended C2: a whitespace-only question. -/
theorem endpoint_rejects_empty_question_witness :
    (∃ msg, (analyze_question none okNet 0
      (.withQuestion (.str "  "))).1 = ApiResponse.badRequest msg) ∧
      (analyze_question none okNet 0 (.withQuestion (.str "  "))).2 = [] :=
  endpoint_rejects_empty_question none okNet 0 _
    (Or.inr (Or.inr ⟨"  ", rfl, by decide⟩))

/-- The rendering C5 claims: one line per participant in registry order
(the order of `models`), each labelled with its uppercased name and paired
with its response text from the transcript. -/
def registryOrderRender (t : List (String × String)) : String :=
  String.intercalate "\n"
    (models.map fun p => upper p.1 ++ ": " ++ ((t.lookup p.1).getD ""))

/-- C5 is false as stated: on an oracle whose replies name their backends,
the rendering embedded in the prompts lists gemini before claude (the
Phase-1 dict insertion order), while registry order lists claude before
gemini, so the two renderings differ. -/
theorem transcript_render_not_registry_order :
    renderTranscript (initialOf (some "k") taggedNet "q") ≠
      registryOrderRender (initialOf (some "k") taggedNet "q") := by
  decide

/-- C5 amended: each prompt-embedded rendering emits one line per
participant of the form NAME (uppercased): response text, in transcript
insertion order — chatgpt, gemini, claude, the Phase-1 dispatch order —
rather than registry order. -/
theorem transcript_render_order (k : Option String) (net : Net) (q : String) :
    renderTranscript (initialOf k net q) = String.intercalate "\n"
      ["CHATGPT: " ++ queryOk k net "chatgpt" q,
       "GEMINI: " ++ queryOk k net "gemini" q,
       "CLAUDE: " ++ queryOk k net "claude" q] ∧
    renderTranscript (refinedOf k net q) = String.intercalate "\n"
      ["CHATGPT: " ++ queryOk k net "chatgpt" (refinementOf k net q),
       "GEMINI: " ++ queryOk k net "gemini" (refinementOf k net q),
       "CLAUDE: " ++ queryOk k net "claude" (refinementOf k net q)] := by
  constructor <;> rfl

/-- C6: Phase 2 dispatches one shared prompt — the same string, to every
participant — and that string embeds the original question and the
verbatim rendering of the Phase-1 transcript. -/
theorem refinement_prompt_shared (k : Option String) (net : Net) (now : Nat)
    (q : String) :
    ∃ r tr, run_conclave_debate k net now q = Except.ok (r, tr) ∧
      tr.filter (fun c => decide (c.phase = Phase.refined)) =
        [⟨Phase.refined, "chatgpt", refinementOf k net q⟩,
         ⟨Phase.refined, "gemini", refinementOf k net q⟩,
         ⟨Phase.refined, "claude", refinementOf k net q⟩] ∧
      (∃ u v, u ++ q.data ++ v = (refinementOf k net q).data) ∧
      (∃ u v, u ++ (renderTranscript (initialOf k net q)).data ++ v =
        (refinementOf k net q).data) := by
  refine ⟨resultOf k net now q, traceOf k net q, run_eq k net now q, rfl,
    ?_, ?_⟩
  · refine ⟨("\n        Original Question: " : String).data,
      ("\n        \n        All AI Perspectives:\n        " : String).data ++
        (renderTranscript (initialOf k net q)).data ++
        ("\n        \n        Based on the other AIs\x27 responses, provide your refined perspective. \n        Challenge weak points, acknowledge strong arguments, and build upon good ideas.\n        " : String).data,
      ?_⟩
    simp [refinementOf, refinementPromptStr, String.data_append]
  · refine ⟨("\n        Original Question: " : String).data ++ q.data ++
        ("\n        \n        All AI Perspectives:\n        " : String).data,
      ("\n        \n        Based on the other AIs\x27 responses, provide your refined perspective. \n        Challenge weak points, acknowledge strong arguments, and build upon good ideas.\n        " : String).data,
      ?_⟩
    simp [refinementOf, refinementPromptStr, String.data_append]

end Conclave
